import Mathlib

/-!
Verification of the owner-statement computation core of
`src/streamlit_app.py` (Owner Statement Generator).

Money and percentage values are embedded as exact rationals (`ℚ`).
Python dictionaries with a fixed key set become Lean structures; keys read
with `dict.get(key, default)` become `Option` fields read with `Option.getD`.
The per-tag override dictionary `client_overrides` becomes an association
list keyed by the tag string.
-/

set_option autoImplicit false

namespace OwnerStatement

/-- Resolved settings record (`default_settings` shape, plus the optional
owner/company fields that overrides may contribute). -/
structure Settings where
  management_fee_percentage : ℚ
  supplies_estimate_percentage : ℚ
  utilities_estimate_percentage : ℚ
  default_tag : String
  owner_name : Option String
  management_company : Option String
  deriving Repr, DecidableEq

/-- A partial per-tag override: `none` = key absent from the override dict,
`some v` = key present with value `v` (dict `update` semantics). -/
structure SettingsOverride where
  management_fee_percentage : Option ℚ
  supplies_estimate_percentage : Option ℚ
  utilities_estimate_percentage : Option ℚ
  default_tag : Option String
  owner_name : Option String
  management_company : Option String
  deriving Repr, DecidableEq

/-- `settings.copy()` followed by `settings.update(override)`: a field
present in the override replaces the default, an absent one is retained. -/
def applyOverride (d : Settings) (o : SettingsOverride) : Settings :=
  { management_fee_percentage := o.management_fee_percentage.getD d.management_fee_percentage
    supplies_estimate_percentage := o.supplies_estimate_percentage.getD d.supplies_estimate_percentage
    utilities_estimate_percentage := o.utilities_estimate_percentage.getD d.utilities_estimate_percentage
    default_tag := o.default_tag.getD d.default_tag
    owner_name := o.owner_name.or d.owner_name
    management_company := o.management_company.or d.management_company }

/-- Processor configuration: `default_settings` plus `client_overrides`. -/
structure Config where
  default_settings : Settings
  client_overrides : List (String × SettingsOverride)
  deriving Repr, DecidableEq

/-- `tag in self.client_overrides` / `self.client_overrides[tag]`. -/
def lookupOverride (ovs : List (String × SettingsOverride)) (tag : String) :
    Option SettingsOverride :=
  match ovs with
  | [] => none
  | (k, o) :: rest => if k = tag then some o else lookupOverride rest tag

/-- `OwnerStatementProcessor.get_client_settings` (src lines 94-100). -/
def get_client_settings (cfg : Config) (tag : String) : Settings :=
  match lookupOverride cfg.client_overrides tag with
  | some o => applyOverride cfg.default_settings o
  | none => cfg.default_settings

/-- `OwnerStatementProcessor.calculate_management_fee` (src lines 102-107). -/
def calculate_management_fee (reservation_income supplies_estimate
    utilities_estimate other_expenses management_fee_percentage : ℚ) : ℚ :=
  (reservation_income - supplies_estimate - utilities_estimate - other_expenses) *
    (management_fee_percentage / 100)

/-- `OwnerStatementProcessor.calculate_supplies_estimate` (src lines 109-111). -/
def calculate_supplies_estimate (cleaning_fees supplies_percentage : ℚ) : ℚ :=
  cleaning_fees * (supplies_percentage / 100)

/-- `OwnerStatementProcessor.calculate_utilities_estimate` (src lines 113-115). -/
def calculate_utilities_estimate (reservation_income utilities_percentage : ℚ) : ℚ :=
  reservation_income * (utilities_percentage / 100)

/-- A reservation record; `total_amount` and `cleaning_fee` are read in the
source with `r.get(key, 0)`, hence `Option ℚ`. -/
structure Reservation where
  reservation_id : String
  property_tag : String
  guest_name : String
  check_in : String
  check_out : String
  total_amount : Option ℚ
  cleaning_fee : Option ℚ
  platform : String
  status : String
  deriving Repr, DecidableEq

/-- A manual expense record; all keys are read with `dict.get`. -/
structure ManualExpense where
  description : Option String
  amount : Option ℚ
  payout_to : Option String
  deriving Repr, DecidableEq

/-- The result dictionary of `process_reservations_data`, plus the
`manual_expenses` key that `generate_statement` may add later. -/
structure ProcessedStatement where
  tag : String
  total_reservations : ℕ
  reservation_income : ℚ
  cleaning_fees : ℚ
  supplies_estimate : ℚ
  utilities_estimate : ℚ
  other_expenses : ℚ
  management_fee : ℚ
  owner_payout : ℚ
  management_payout : ℚ
  total_payouts : ℚ
  settings : Settings
  reservations : List Reservation
  manual_expenses : Option (List ManualExpense)
  deriving Repr, DecidableEq

/-- `OwnerStatementProcessor.process_reservations_data` (src lines 117-165). -/
def process_reservations_data (cfg : Config) (reservations_data : List Reservation)
    (tag : String) : ProcessedStatement :=
  let settings := get_client_settings cfg tag
  let total_reservation_income := (reservations_data.map (fun r => r.total_amount.getD 0)).sum
  let total_cleaning_fees := (reservations_data.map (fun r => r.cleaning_fee.getD 0)).sum
  let supplies_estimate :=
    calculate_supplies_estimate total_cleaning_fees settings.supplies_estimate_percentage
  let utilities_estimate :=
    calculate_utilities_estimate total_reservation_income settings.utilities_estimate_percentage
  let other_expenses : ℚ := 0
  let management_fee :=
    calculate_management_fee total_reservation_income supplies_estimate utilities_estimate
      other_expenses settings.management_fee_percentage
  let owner_payout :=
    total_reservation_income - supplies_estimate - utilities_estimate - other_expenses -
      management_fee
  { tag := tag
    total_reservations := reservations_data.length
    reservation_income := total_reservation_income
    cleaning_fees := total_cleaning_fees
    supplies_estimate := supplies_estimate
    utilities_estimate := utilities_estimate
    other_expenses := other_expenses
    management_fee := management_fee
    owner_payout := owner_payout
    management_payout := management_fee
    total_payouts := owner_payout + management_fee
    settings := settings
    reservations := reservations_data
    manual_expenses := none }

/-- One line of the statement breakdown; `type` is one of the source's
string tags "income", "expense", "payout". -/
structure BreakdownLine where
  line_item : String
  amount : ℚ
  type : String
  payout_to : String
  deriving Repr, DecidableEq

/-- Python `list.insert(-1, x)`: insert `x` immediately before the last
element (at position 0 on an empty list). -/
def insertBeforeLast {α : Type} (xs : List α) (x : α) : List α :=
  xs.dropLast ++ x :: xs.drop (xs.length - 1)

/-- The "Reservation Income" line of `create_statement_breakdown`. -/
def reservationIncomeLine (pd : ProcessedStatement) : BreakdownLine :=
  { line_item := "Reservation Income", amount := pd.reservation_income,
    type := "income", payout_to := "N/A" }

/-- The "Supplies Estimate" line of `create_statement_breakdown`. -/
def suppliesLine (pd : ProcessedStatement) : BreakdownLine :=
  { line_item := "Supplies Estimate", amount := -pd.supplies_estimate,
    type := "expense", payout_to := "Management Company" }

/-- The "Utilities Estimate" line of `create_statement_breakdown`. -/
def utilitiesLine (pd : ProcessedStatement) : BreakdownLine :=
  { line_item := "Utilities Estimate", amount := -pd.utilities_estimate,
    type := "expense", payout_to := "Management Company" }

/-- The "Management Fee" line of `create_statement_breakdown`. -/
def managementFeeLine (pd : ProcessedStatement) : BreakdownLine :=
  { line_item := "Management Fee", amount := -pd.management_fee,
    type := "expense", payout_to := "Management Company" }

/-- The "Owner Payout" line of `create_statement_breakdown`. -/
def ownerPayoutLine (pd : ProcessedStatement) : BreakdownLine :=
  { line_item := "Owner Payout", amount := pd.owner_payout,
    type := "payout", payout_to := "Owner" }

/-- The aggregate "Other Expenses" line inserted when `other_expenses > 0`. -/
def otherExpensesLine (pd : ProcessedStatement) : BreakdownLine :=
  { line_item := "Other Expenses", amount := -pd.other_expenses,
    type := "expense", payout_to := "Various" }

/-- `OwnerStatementProcessor.create_statement_breakdown` (src lines 167-210). -/
def create_statement_breakdown (pd : ProcessedStatement) : List BreakdownLine :=
  let breakdown : List BreakdownLine :=
    [reservationIncomeLine pd, suppliesLine pd, utilitiesLine pd,
      managementFeeLine pd, ownerPayoutLine pd]
  if 0 < pd.other_expenses then insertBeforeLast breakdown (otherExpensesLine pd)
  else breakdown

/-- `sum(expense.get('amount', 0) for expense in manual_expenses)`. -/
def manualExpensesTotal (manual_expenses : List ManualExpense) : ℚ :=
  (manual_expenses.map (fun e => e.amount.getD 0)).sum

/-- The `if manual_expenses:` block of `generate_statement`
(src lines 482-506): overwrite `other_expenses` and recompute the fee,
the owner payout and `total_payouts`. A falsy (empty) list leaves the
processed data unchanged. -/
def applyManualExpenses (pd : ProcessedStatement)
    (manual_expenses : List ManualExpense) : ProcessedStatement :=
  if manual_expenses.isEmpty then pd
  else
    let total_manual_expenses := manualExpensesTotal manual_expenses
    let management_fee :=
      calculate_management_fee pd.reservation_income pd.supplies_estimate
        pd.utilities_estimate total_manual_expenses pd.settings.management_fee_percentage
    let owner_payout :=
      pd.reservation_income - pd.supplies_estimate - pd.utilities_estimate -
        total_manual_expenses - management_fee
    { pd with
        manual_expenses := some manual_expenses
        other_expenses := total_manual_expenses
        management_fee := management_fee
        owner_payout := owner_payout
        total_payouts := owner_payout + management_fee }

/-- The breakdown line built for one manual expense (src lines 517-522). -/
def manualExpenseLine (expense : ManualExpense) : BreakdownLine :=
  { line_item := expense.description.getD "Manual Expense"
    amount := -(expense.amount.getD 0)
    type := "expense"
    payout_to := expense.payout_to.getD "Various" }

/-- The `if manual_expenses:` loop of `generate_statement`
(src lines 514-522): insert one line per manual expense before the last
breakdown line, in input order. -/
def appendManualExpenseLines (breakdown : List BreakdownLine)
    (manual_expenses : List ManualExpense) : List BreakdownLine :=
  if manual_expenses.isEmpty then breakdown
  else manual_expenses.foldl (fun acc e => insertBeforeLast acc (manualExpenseLine e)) breakdown

/-- `simulate_bank_verification`'s result dictionary (the wall-clock
`verification_time` string is not modelled). -/
structure BankVerification where
  expected_amount : ℚ
  actual_balance : ℚ
  discrepancy : ℚ
  is_match : Bool
  tolerance : ℚ
  status : String
  simulation : Bool
  deriving Repr, DecidableEq

/-- `simulate_bank_verification` (src lines 273-288). -/
def simulate_bank_verification (expected_amount : ℚ) : BankVerification :=
  let actual_balance := expected_amount + 25.75
  let discrepancy := |expected_amount - actual_balance|
  { expected_amount := expected_amount
    actual_balance := actual_balance
    discrepancy := discrepancy
    is_match := decide (discrepancy ≤ 0.01)
    tolerance := 0.01
    status := if discrepancy ≤ 0.01 then "MATCH" else "DISCREPANCY_FOUND"
    simulation := true }

/-- `get_sample_reservations` (src lines 235-271). -/
def get_sample_reservations (tag : String) : List Reservation :=
  [{ reservation_id := "HSP001", property_tag := tag, guest_name := "John Doe",
     check_in := "2025-09-01", check_out := "2025-09-05",
     total_amount := some 1800, cleaning_fee := some 120,
     platform := "Airbnb", status := "completed" },
   { reservation_id := "HSP002", property_tag := tag, guest_name := "Jane Smith",
     check_in := "2025-09-10", check_out := "2025-09-15",
     total_amount := some 2500, cleaning_fee := some 150,
     platform := "VRBO", status := "completed" },
   { reservation_id := "HSP003", property_tag := tag, guest_name := "Mike Johnson",
     check_in := "2025-09-20", check_out := "2025-09-25",
     total_amount := some 2200, cleaning_fee := some 130,
     platform := "Booking.com", status := "completed" }]

/-- The `default_settings` record of the source configuration. -/
def default_settings_record : Settings :=
  { management_fee_percentage := 20
    supplies_estimate_percentage := 15
    utilities_estimate_percentage := 8
    default_tag := "480 Laswell Ave"
    owner_name := none
    management_company := none }

/-- `st.session_state.config` (src lines 213-230). -/
def session_config : Config :=
  { default_settings := default_settings_record
    client_overrides :=
      [("480 Laswell Ave",
        { management_fee_percentage := some 20
          supplies_estimate_percentage := some 15
          utilities_estimate_percentage := some 8
          default_tag := none
          owner_name := some "Property Owner"
          management_company := some "Your Management Company" })] }

/-- Result of `generate_statement` as passed to `display_statement_results`. -/
structure StatementResult where
  processed_data : ProcessedStatement
  bank_verification : BankVerification
  breakdown : List BreakdownLine
  tag : String
  month : String
  discrepancy_found : Bool
  deriving Repr, DecidableEq

/-- The computational core of `generate_statement` (src lines 471-534),
parameterised over the reservation list it processes. -/
def generate_statement_core (cfg : Config) (reservations : List Reservation)
    (tag month : String) (manual_expenses : List ManualExpense) : StatementResult :=
  let processed_data :=
    applyManualExpenses (process_reservations_data cfg reservations tag) manual_expenses
  let bank_verification := simulate_bank_verification processed_data.total_payouts
  let breakdown :=
    appendManualExpenseLines (create_statement_breakdown processed_data) manual_expenses
  { processed_data := processed_data
    bank_verification := bank_verification
    breakdown := breakdown
    tag := tag
    month := month
    discrepancy_found := !bank_verification.is_match }

/-- `generate_statement` itself: the reservations are always the sample
data for the tag (src line 476). -/
def generate_statement (cfg : Config) (tag month : String)
    (manual_expenses : List ManualExpense) : StatementResult :=
  generate_statement_core cfg (get_sample_reservations tag) tag month manual_expenses

/-- The single manual expense used in the spec's manual-expense scenario. -/
def sample_manual_expenses : List ManualExpense :=
  [{ description := some "Repair", amount := some 100, payout_to := some "Handyman" }]

/-- A configuration carrying one partial override (only the management fee
percentage), for exercising the override merge on concrete input. -/
def witness_config : Config :=
  { default_settings := default_settings_record
    client_overrides :=
      [("Unit A",
        { management_fee_percentage := some 25
          supplies_estimate_percentage := none
          utilities_estimate_percentage := none
          default_tag := none
          owner_name := none
          management_company := none })] }

/-! ## Helper lemmas -/

/-- Inserting before the last element of a non-empty list splits off that
last element. -/
theorem insertBeforeLast_concat {α : Type} (xs : List α) (a x : α) :
    insertBeforeLast (xs ++ [a]) x = xs ++ [x, a] := by
  unfold insertBeforeLast
  simp [List.dropLast_concat, List.drop_left]

/-- Repeatedly inserting mapped elements before the last element appends
them, in order, just before it. -/
theorem foldl_insertBeforeLast (f : ManualExpense → BreakdownLine)
    (mes : List ManualExpense) (front : List BreakdownLine) (z : BreakdownLine) :
    mes.foldl (fun acc e => insertBeforeLast acc (f e)) (front ++ [z]) =
      front ++ mes.map f ++ [z] := by
  induction mes generalizing front with
  | nil => simp
  | cons e rest ih =>
      simp only [List.foldl_cons, insertBeforeLast_concat]
      have h := ih (front ++ [f e])
      simp only [List.append_assoc] at h ⊢
      simpa using h

/-- Closed form of `create_statement_breakdown`: the four fixed leading
lines, the conditional aggregate "Other Expenses" line, the final
"Owner Payout" line. -/
theorem create_statement_breakdown_eq (pd : ProcessedStatement) :
    create_statement_breakdown pd =
      [reservationIncomeLine pd, suppliesLine pd, utilitiesLine pd, managementFeeLine pd] ++
        (if 0 < pd.other_expenses then [otherExpensesLine pd] else []) ++
        [ownerPayoutLine pd] := by
  unfold create_statement_breakdown
  by_cases h : 0 < pd.other_expenses
  · rw [if_pos h, if_pos h]; rfl
  · rw [if_neg h, if_neg h]; rfl

/-- Closed form of the breakdown produced by `generate_statement`: the
per-expense manual lines land between the conditional aggregate line and
the final "Owner Payout" line. -/
theorem breakdown_pipeline_eq (pd : ProcessedStatement) (mes : List ManualExpense) :
    appendManualExpenseLines (create_statement_breakdown pd) mes =
      [reservationIncomeLine pd, suppliesLine pd, utilitiesLine pd, managementFeeLine pd] ++
        (if 0 < pd.other_expenses then [otherExpensesLine pd] else []) ++
        mes.map manualExpenseLine ++ [ownerPayoutLine pd] := by
  unfold appendManualExpenseLines
  by_cases h : mes.isEmpty
  · rw [if_pos h]
    rw [List.isEmpty_iff] at h
    subst h
    simp [create_statement_breakdown_eq]
  · rw [if_neg h]
    rw [create_statement_breakdown_eq]
    rw [show
      [reservationIncomeLine pd, suppliesLine pd, utilitiesLine pd, managementFeeLine pd] ++
        (if 0 < pd.other_expenses then [otherExpensesLine pd] else []) ++ [ownerPayoutLine pd] =
      ([reservationIncomeLine pd, suppliesLine pd, utilitiesLine pd, managementFeeLine pd] ++
        (if 0 < pd.other_expenses then [otherExpensesLine pd] else [])) ++ [ownerPayoutLine pd]
      from by simp [List.append_assoc]]
    rw [foldl_insertBeforeLast]

/-- `simulate_bank_verification` in closed form: the discrepancy is the
fixed offset 25.75, which always exceeds the 0.01 tolerance. -/
theorem simulate_bank_verification_spec (e : ℚ) :
    simulate_bank_verification e =
      { expected_amount := e, actual_balance := e + 25.75, discrepancy := 25.75,
        is_match := false, tolerance := 0.01, status := "DISCREPANCY_FOUND",
        simulation := true } := by
  have habs : |e - (e + 25.75)| = (25.75 : ℚ) := by
    rw [show e - (e + 25.75) = -(25.75 : ℚ) by ring, abs_neg, abs_of_nonneg (by norm_num)]
  have hno : ¬ ((25.75 : ℚ) ≤ 0.01) := by norm_num
  unfold simulate_bank_verification
  simp [habs, hno]
  norm_num [abs_of_nonneg]

/-- Projection of the breakdown out of `generate_statement_core`. -/
theorem generate_statement_core_breakdown (cfg : Config) (rs : List Reservation)
    (tag month : String) (mes : List ManualExpense) :
    (generate_statement_core cfg rs tag month mes).breakdown =
      appendManualExpenseLines
        (create_statement_breakdown
          (applyManualExpenses (process_reservations_data cfg rs tag) mes)) mes := rfl

/-- `process_reservations_data` always reports zero other expenses. -/
theorem process_reservations_other_expenses (cfg : Config) (rs : List Reservation)
    (tag : String) : (process_reservations_data cfg rs tag).other_expenses = 0 := rfl

/-- With a non-empty manual-expense list, `other_expenses` is overwritten
with the summed manual amounts. -/
theorem applyManualExpenses_other_expenses (pd : ProcessedStatement)
    (mes : List ManualExpense) (h : ¬ mes.isEmpty = true) :
    (applyManualExpenses pd mes).other_expenses = manualExpensesTotal mes := by
  simp [applyManualExpenses, h]

/-- In a list of the shape `a :: (mid ++ [z])` whose two end elements are
not of type "expense", any element of type "expense" sits strictly between
the ends. -/
theorem expense_strictly_between (a z : BreakdownLine) (mid : List BreakdownLine)
    (ha : a.type ≠ "expense") (hz : z.type ≠ "expense")
    (i : ℕ) (h : i < (a :: (mid ++ [z])).length)
    (hexp : ((a :: (mid ++ [z])).get ⟨i, h⟩).type = "expense") :
    0 < i ∧ i + 1 < (a :: (mid ++ [z])).length := by
  have hlen : (a :: (mid ++ [z])).length = mid.length + 2 := by simp
  constructor
  · rcases Nat.eq_zero_or_pos i with h0 | h0
    · subst h0
      simp only [List.get] at hexp
      exact absurd hexp ha
    · exact h0
  · by_contra hcon
    push_neg at hcon
    have hi : i = mid.length + 1 := by omega
    subst hi
    have hz' : ((a :: (mid ++ [z])).get ⟨mid.length + 1, h⟩) = z := by
      have h2 : ((a :: mid) ++ [z])[(a :: mid).length] = z :=
        List.getElem_concat_length (a :: mid) z _ rfl (by simp)
      simp only [List.cons_append, List.length_cons, List.getElem_cons_succ] at h2
      simp only [List.get_eq_getElem, List.getElem_cons_succ]
      exact h2
    rw [hz'] at hexp
    exact absurd hexp hz

/-! ## Claims -/

/-- C1: for every statement computation, with or without manual expenses,
`owner_payout = reservation_income - supplies_estimate - utilities_estimate -
other_expenses - management_fee`, and `total_payouts = owner_payout +
management_fee`, which equals `reservation_income - supplies_estimate -
utilities_estimate - other_expenses` exactly, with no rounding drift. -/
theorem statement_payout_identity (cfg : Config) (rs : List Reservation)
    (tag : String) (mes : List ManualExpense) :
    (applyManualExpenses (process_reservations_data cfg rs tag) mes).owner_payout =
        (applyManualExpenses (process_reservations_data cfg rs tag) mes).reservation_income -
        (applyManualExpenses (process_reservations_data cfg rs tag) mes).supplies_estimate -
        (applyManualExpenses (process_reservations_data cfg rs tag) mes).utilities_estimate -
        (applyManualExpenses (process_reservations_data cfg rs tag) mes).other_expenses -
        (applyManualExpenses (process_reservations_data cfg rs tag) mes).management_fee ∧
    (applyManualExpenses (process_reservations_data cfg rs tag) mes).total_payouts =
        (applyManualExpenses (process_reservations_data cfg rs tag) mes).owner_payout +
        (applyManualExpenses (process_reservations_data cfg rs tag) mes).management_fee ∧
    (applyManualExpenses (process_reservations_data cfg rs tag) mes).total_payouts =
        (applyManualExpenses (process_reservations_data cfg rs tag) mes).reservation_income -
        (applyManualExpenses (process_reservations_data cfg rs tag) mes).supplies_estimate -
        (applyManualExpenses (process_reservations_data cfg rs tag) mes).utilities_estimate -
        (applyManualExpenses (process_reservations_data cfg rs tag) mes).other_expenses := by
  by_cases h : mes.isEmpty
  · simp [applyManualExpenses, process_reservations_data, h]
  · simp only [applyManualExpenses, process_reservations_data, h, if_false, Bool.false_eq_true,
      if_neg]
    refine ⟨by ring_nf, by ring_nf, by ring_nf⟩

/-- C2: the three sample reservations (amounts 1800, 2500, 2200, cleaning
fees 120, 150, 130) under settings 20/15/8 give income 6500, cleaning fees
400, supplies estimate 60, utilities estimate 520, other expenses 0,
management fee 1184, owner payout 4736 and total payouts 5920. -/
theorem end_to_end_sample_statement :
    (process_reservations_data session_config
        (get_sample_reservations "480 Laswell Ave") "480 Laswell Ave").reservation_income = 6500 ∧
    (process_reservations_data session_config
        (get_sample_reservations "480 Laswell Ave") "480 Laswell Ave").cleaning_fees = 400 ∧
    (process_reservations_data session_config
        (get_sample_reservations "480 Laswell Ave") "480 Laswell Ave").supplies_estimate = 60 ∧
    (process_reservations_data session_config
        (get_sample_reservations "480 Laswell Ave") "480 Laswell Ave").utilities_estimate = 520 ∧
    (process_reservations_data session_config
        (get_sample_reservations "480 Laswell Ave") "480 Laswell Ave").other_expenses = 0 ∧
    (process_reservations_data session_config
        (get_sample_reservations "480 Laswell Ave") "480 Laswell Ave").management_fee = 1184 ∧
    (process_reservations_data session_config
        (get_sample_reservations "480 Laswell Ave") "480 Laswell Ave").owner_payout = 4736 ∧
    (process_reservations_data session_config
        (get_sample_reservations "480 Laswell Ave") "480 Laswell Ave").total_payouts = 5920 := by
  norm_num [process_reservations_data, get_sample_reservations, session_config,
    get_client_settings, lookupOverride, applyOverride, default_settings_record,
    calculate_supplies_estimate, calculate_utilities_estimate, calculate_management_fee]

/-- C3 (counterexample): adding the single manual expense of 100 to the
end-to-end scenario yields an owner payout of 4656 (indeed
6500 - 60 - 520 - 100 - 1164 = 4656), not the claimed 4556. -/
theorem manual_expense_payout_counterexample :
    (generate_statement session_config "480 Laswell Ave" "2025-09"
        sample_manual_expenses).processed_data.owner_payout = 4656 ∧
    (generate_statement session_config "480 Laswell Ave" "2025-09"
        sample_manual_expenses).processed_data.owner_payout ≠ 4556 := by
  simp [generate_statement, generate_statement_core, applyManualExpenses,
    manualExpensesTotal, sample_manual_expenses,
    process_reservations_data, get_sample_reservations, session_config,
    get_client_settings, lookupOverride, applyOverride, default_settings_record,
    calculate_supplies_estimate, calculate_utilities_estimate, calculate_management_fee]
  norm_num

/-- C3 (amended): adding one manual expense of 100 to the end-to-end
scenario fully recomputes the statement, yielding other_expenses = 100,
management_fee = (6500 - 60 - 520 - 100) * 20 / 100 = 1164 and
owner_payout = 6500 - 60 - 520 - 100 - 1164 = 4656. -/
theorem manual_expense_recompute_sample :
    (generate_statement session_config "480 Laswell Ave" "2025-09"
        sample_manual_expenses).processed_data.other_expenses = 100 ∧
    (generate_statement session_config "480 Laswell Ave" "2025-09"
        sample_manual_expenses).processed_data.management_fee = 1164 ∧
    (generate_statement session_config "480 Laswell Ave" "2025-09"
        sample_manual_expenses).processed_data.owner_payout = 4656 ∧
    (generate_statement session_config "480 Laswell Ave" "2025-09"
          sample_manual_expenses).processed_data.management_fee =
      calculate_management_fee 6500 60 520 100 20 ∧
    (generate_statement session_config "480 Laswell Ave" "2025-09"
          sample_manual_expenses).processed_data.owner_payout =
      6500 - 60 - 520 - 100 - calculate_management_fee 6500 60 520 100 20 := by
  simp [generate_statement, generate_statement_core, applyManualExpenses,
    manualExpensesTotal, sample_manual_expenses,
    process_reservations_data, get_sample_reservations, session_config,
    get_client_settings, lookupOverride, applyOverride, default_settings_record,
    calculate_supplies_estimate, calculate_utilities_estimate, calculate_management_fee]
  norm_num

/-- C4 (counterexample): with one manual expense of 100 on the end-to-end
scenario, the breakdown has SEVEN lines, with the aggregate "Other
Expenses" line between "Management Fee" and the per-expense line, so the
claimed order (income, supplies, utilities, management fee, manual lines,
owner payout, i.e. 5 + 1 = 6 lines) is wrong. -/
theorem breakdown_order_counterexample :
    (generate_statement session_config "480 Laswell Ave" "2025-09"
        sample_manual_expenses).breakdown.map BreakdownLine.line_item =
      ["Reservation Income", "Supplies Estimate", "Utilities Estimate", "Management Fee",
        "Other Expenses", "Repair", "Owner Payout"] ∧
    (generate_statement session_config "480 Laswell Ave" "2025-09"
        sample_manual_expenses).breakdown.length ≠ 5 + sample_manual_expenses.length := by
  have hoe : (0 : ℚ) <
      (applyManualExpenses
        (process_reservations_data session_config
          (get_sample_reservations "480 Laswell Ave") "480 Laswell Ave")
        sample_manual_expenses).other_expenses := by
    rw [applyManualExpenses_other_expenses _ _ (by simp [sample_manual_expenses])]
    simp [manualExpensesTotal, sample_manual_expenses]
  unfold generate_statement
  rw [generate_statement_core_breakdown, breakdown_pipeline_eq, if_pos hoe]
  constructor
  · simp [reservationIncomeLine, suppliesLine, utilitiesLine, managementFeeLine,
      otherExpensesLine, ownerPayoutLine, manualExpenseLine, sample_manual_expenses]
  · simp [sample_manual_expenses]

/-- C4 (amended): for every statement computation the breakdown is exactly:
Reservation Income, Supplies Estimate, Utilities Estimate, Management Fee,
then — when the summed manual-expense amounts are positive — one aggregate
"Other Expenses" line, then exactly one line per manual expense in input
order (negated amount, type expense, payee its own payout_to or "Various"),
then Owner Payout. -/
theorem breakdown_order_with_aggregate_line (cfg : Config) (rs : List Reservation)
    (tag month : String) (mes : List ManualExpense) :
    (generate_statement_core cfg rs tag month mes).breakdown =
      [reservationIncomeLine (applyManualExpenses (process_reservations_data cfg rs tag) mes),
        suppliesLine (applyManualExpenses (process_reservations_data cfg rs tag) mes),
        utilitiesLine (applyManualExpenses (process_reservations_data cfg rs tag) mes),
        managementFeeLine (applyManualExpenses (process_reservations_data cfg rs tag) mes)] ++
      (if 0 < manualExpensesTotal mes then
        [otherExpensesLine (applyManualExpenses (process_reservations_data cfg rs tag) mes)]
      else []) ++
      mes.map manualExpenseLine ++
      [ownerPayoutLine (applyManualExpenses (process_reservations_data cfg rs tag) mes)] := by
  rw [generate_statement_core_breakdown, breakdown_pipeline_eq]
  by_cases h : mes.isEmpty
  · have hm : mes = [] := List.isEmpty_iff.mp h
    subst hm
    simp [applyManualExpenses, manualExpensesTotal, process_reservations_other_expenses]
  · rw [applyManualExpenses_other_expenses _ _ h]

/-- C5: for every statement computation, the breakdown starts with a line
of type income, ends with a line of type payout, and every line of type
expense lies strictly between the first and the last position. -/
theorem breakdown_endpoints (cfg : Config) (rs : List Reservation)
    (tag month : String) (mes : List ManualExpense) :
    ((generate_statement_core cfg rs tag month mes).breakdown.head?).map
        BreakdownLine.type = some "income" ∧
    ((generate_statement_core cfg rs tag month mes).breakdown.getLast?).map
        BreakdownLine.type = some "payout" ∧
    ∀ (i : ℕ) (h : i < (generate_statement_core cfg rs tag month mes).breakdown.length),
      ((generate_statement_core cfg rs tag month mes).breakdown.get ⟨i, h⟩).type =
          "expense" →
        0 < i ∧ i + 1 < (generate_statement_core cfg rs tag month mes).breakdown.length := by
  rw [generate_statement_core_breakdown, breakdown_pipeline_eq]
  set pd := applyManualExpenses (process_reservations_data cfg rs tag) mes with hpd
  have hshape :
      [reservationIncomeLine pd, suppliesLine pd, utilitiesLine pd, managementFeeLine pd] ++
        (if 0 < pd.other_expenses then [otherExpensesLine pd] else []) ++
        mes.map manualExpenseLine ++ [ownerPayoutLine pd] =
      reservationIncomeLine pd ::
        (([suppliesLine pd, utilitiesLine pd, managementFeeLine pd] ++
          (if 0 < pd.other_expenses then [otherExpensesLine pd] else []) ++
          mes.map manualExpenseLine) ++ [ownerPayoutLine pd]) := by
    simp [List.append_assoc]
  rw [hshape]
  refine ⟨rfl, ?_, ?_⟩
  · rw [show (reservationIncomeLine pd ::
        (([suppliesLine pd, utilitiesLine pd, managementFeeLine pd] ++
          (if 0 < pd.other_expenses then [otherExpensesLine pd] else []) ++
          mes.map manualExpenseLine) ++ [ownerPayoutLine pd])) =
      ((reservationIncomeLine pd ::
        ([suppliesLine pd, utilitiesLine pd, managementFeeLine pd] ++
          (if 0 < pd.other_expenses then [otherExpensesLine pd] else []) ++
          mes.map manualExpenseLine)) ++ [ownerPayoutLine pd]) from by simp]
    rw [List.getLast?_concat]
    rfl
  · intro i h hexp
    exact expense_strictly_between (reservationIncomeLine pd) (ownerPayoutLine pd)
      ([suppliesLine pd, utilitiesLine pd, managementFeeLine pd] ++
        (if 0 < pd.other_expenses then [otherExpensesLine pd] else []) ++
        mes.map manualExpenseLine)
      (by simp [reservationIncomeLine]) (by simp [ownerPayoutLine]) i h hexp

/-- C5 (witness): on the sample scenario with one manual expense, the first
breakdown line has type income, and line 1 (type expense) lies strictly
between the ends. -/
theorem breakdown_endpoints_witness :
    ((generate_statement_core session_config (get_sample_reservations "480 Laswell Ave")
        "480 Laswell Ave" "2025-09" sample_manual_expenses).breakdown.head?).map
        BreakdownLine.type = some "income" ∧
    (0 < 1 ∧ 1 + 1 <
      (generate_statement_core session_config (get_sample_reservations "480 Laswell Ave")
        "480 Laswell Ave" "2025-09" sample_manual_expenses).breakdown.length) := by
  have h := breakdown_endpoints session_config (get_sample_reservations "480 Laswell Ave")
    "480 Laswell Ave" "2025-09" sample_manual_expenses
  refine ⟨h.1, h.2.2 1 ?_ ?_⟩
  · rw [generate_statement_core_breakdown, breakdown_pipeline_eq]
    by_cases hc : 0 <
        (applyManualExpenses
          (process_reservations_data session_config
            (get_sample_reservations "480 Laswell Ave") "480 Laswell Ave")
          sample_manual_expenses).other_expenses <;>
      simp [hc, sample_manual_expenses]
  · have hb := generate_statement_core_breakdown session_config
      (get_sample_reservations "480 Laswell Ave") "480 Laswell Ave" "2025-09"
      sample_manual_expenses
    rw [breakdown_pipeline_eq] at hb
    simp only [List.get_eq_getElem]
    rw [List.getElem_of_eq hb]
    simp [suppliesLine]

/-- C6: settings resolution always yields a complete record; when an
override exists for the tag, each field present in it replaces the default
and each absent field retains the default value; when no override exists,
the default settings are returned unchanged. -/
theorem settings_override_merge (cfg : Config) (tag : String) :
    (∀ o : SettingsOverride, lookupOverride cfg.client_overrides tag = some o →
      (get_client_settings cfg tag).management_fee_percentage =
          o.management_fee_percentage.getD cfg.default_settings.management_fee_percentage ∧
      (get_client_settings cfg tag).supplies_estimate_percentage =
          o.supplies_estimate_percentage.getD cfg.default_settings.supplies_estimate_percentage ∧
      (get_client_settings cfg tag).utilities_estimate_percentage =
          o.utilities_estimate_percentage.getD cfg.default_settings.utilities_estimate_percentage ∧
      (get_client_settings cfg tag).default_tag =
          o.default_tag.getD cfg.default_settings.default_tag ∧
      (get_client_settings cfg tag).owner_name =
          o.owner_name.or cfg.default_settings.owner_name ∧
      (get_client_settings cfg tag).management_company =
          o.management_company.or cfg.default_settings.management_company) ∧
    (lookupOverride cfg.client_overrides tag = none →
      get_client_settings cfg tag = cfg.default_settings) := by
  unfold get_client_settings
  constructor
  · intro o ho
    rw [ho]
    exact ⟨rfl, rfl, rfl, rfl, rfl, rfl⟩
  · intro h
    rw [h]

/-- C6 (witness): a partial override setting only the management fee
percentage to 25 resolves to 25 with the other percentages at their
defaults, and an unknown tag resolves to the default settings. -/
theorem settings_override_merge_witness :
    (get_client_settings witness_config "Unit A").management_fee_percentage = 25 ∧
    (get_client_settings witness_config "Unit A").supplies_estimate_percentage = 15 ∧
    (get_client_settings witness_config "Unit A").utilities_estimate_percentage = 8 ∧
    get_client_settings witness_config "Unit B" = witness_config.default_settings := by
  have h := (settings_override_merge witness_config "Unit A").1
    { management_fee_percentage := some 25, supplies_estimate_percentage := none,
      utilities_estimate_percentage := none, default_tag := none,
      owner_name := none, management_company := none } rfl
  exact ⟨h.1, h.2.1, h.2.2.1,
    (settings_override_merge witness_config "Unit B").2 rfl⟩

/-- C7: the bank verification is total on rational inputs, reports the
discrepancy as the absolute difference from the actual balance, uses a
fixed 0.01 tolerance, sets is_match exactly when the discrepancy is within
tolerance, and its status is the two-valued MATCH / DISCREPANCY_FOUND with
MATCH exactly when is_match; in particular verify(100) gives actual
balance 125.75, discrepancy 25.75, no match and DISCREPANCY_FOUND. -/
theorem bank_verification_contract (e : ℚ) :
    ((simulate_bank_verification e).discrepancy =
        |e - (simulate_bank_verification e).actual_balance| ∧
      (simulate_bank_verification e).tolerance = 0.01 ∧
      ((simulate_bank_verification e).is_match = true ↔
        (simulate_bank_verification e).discrepancy ≤ 0.01) ∧
      ((simulate_bank_verification e).status = "MATCH" ↔
        (simulate_bank_verification e).is_match = true) ∧
      ((simulate_bank_verification e).status = "MATCH" ∨
        (simulate_bank_verification e).status = "DISCREPANCY_FOUND")) ∧
    ((simulate_bank_verification 100).actual_balance = 125.75 ∧
      (simulate_bank_verification 100).discrepancy = 25.75 ∧
      (simulate_bank_verification 100).is_match = false ∧
      (simulate_bank_verification 100).status = "DISCREPANCY_FOUND") := by
  constructor
  · rw [simulate_bank_verification_spec e]
    refine ⟨?_, rfl, ?_, ?_, Or.inr rfl⟩
    · show (25.75 : ℚ) = |e - (e + 25.75)|
      rw [show e - (e + 25.75) = -(25.75 : ℚ) by ring, abs_neg, abs_of_nonneg (by norm_num)]
    · show (false = true ↔ (25.75 : ℚ) ≤ 0.01)
      constructor
      · intro h; exact absurd h (by simp)
      · intro h; exact absurd h (by norm_num)
    · show ("DISCREPANCY_FOUND" = "MATCH" ↔ false = true)
      constructor
      · intro h; exact absurd h (by decide)
      · intro h; exact absurd h (by simp)
  · rw [simulate_bank_verification_spec 100]
    refine ⟨by norm_num, rfl, rfl, rfl⟩

/-- C7 (witness): the verification contract instantiated at 100. -/
theorem bank_verification_contract_witness :
    (simulate_bank_verification 100).actual_balance = 125.75 ∧
      (simulate_bank_verification 100).discrepancy = 25.75 ∧
      (simulate_bank_verification 100).is_match = false ∧
      (simulate_bank_verification 100).status = "DISCREPANCY_FOUND" :=
  (bank_verification_contract 0).2

/-- C8: the management fee is always
`(reservation_income - supplies_estimate - utilities_estimate -
other_expenses) * fee_pct / 100`, with no floor at zero, so a negative net
income together with a positive fee percentage yields a negative fee. -/
theorem management_fee_formula_no_floor (ri s u o p : ℚ) :
    calculate_management_fee ri s u o p = (ri - s - u - o) * p / 100 ∧
    (ri - s - u - o < 0 → 0 < p → calculate_management_fee ri s u o p < 0) := by
  constructor
  · unfold calculate_management_fee; ring
  · intro hneg hp
    unfold calculate_management_fee
    exact mul_neg_of_neg_of_pos hneg (by positivity)

/-- C8 (witness): with net income -10 and fee percentage 20 the fee is
negative. -/
theorem management_fee_formula_no_floor_witness :
    ((0 : ℚ) - 10 - 0 - 0 < 0 ∧ (0 : ℚ) < 20) ∧
      calculate_management_fee 0 10 0 0 20 < 0 :=
  ⟨⟨by norm_num, by norm_num⟩,
    (management_fee_formula_no_floor 0 10 0 0 20).2 (by norm_num) (by norm_num)⟩

/-- C9: for non-negative cleaning fees and income and percentages in
[0, 100], the supplies estimate is at most the cleaning fees and the
utilities estimate is at most the income, with equality at 100 percent. -/
theorem estimates_bounded_by_bases (cf ri p q : ℚ) (hcf : 0 ≤ cf) (hri : 0 ≤ ri)
    (_hp0 : 0 ≤ p) (hp1 : p ≤ 100) (_hq0 : 0 ≤ q) (hq1 : q ≤ 100) :
    calculate_supplies_estimate cf p ≤ cf ∧
    calculate_utilities_estimate ri q ≤ ri ∧
    calculate_supplies_estimate cf 100 = cf ∧
    calculate_utilities_estimate ri 100 = ri := by
  unfold calculate_supplies_estimate calculate_utilities_estimate
  refine ⟨?_, ?_, by ring, by ring⟩
  · nlinarith
  · nlinarith

/-- C9 (witness): the estimate bounds at cleaning fees 400 / income 6500
with percentages 15 and 8. -/
theorem estimates_bounded_by_bases_witness :
    ((0 : ℚ) ≤ 400 ∧ (0 : ℚ) ≤ 6500 ∧ (0 : ℚ) ≤ 15 ∧ (15 : ℚ) ≤ 100 ∧
      (0 : ℚ) ≤ 8 ∧ (8 : ℚ) ≤ 100) ∧
    calculate_supplies_estimate 400 15 ≤ 400 ∧
    calculate_utilities_estimate 6500 8 ≤ 6500 :=
  ⟨⟨by norm_num, by norm_num, by norm_num, by norm_num, by norm_num, by norm_num⟩,
    (estimates_bounded_by_bases 400 6500 15 8 (by norm_num) (by norm_num) (by norm_num)
        (by norm_num) (by norm_num) (by norm_num)).1,
    (estimates_bounded_by_bases 400 6500 15 8 (by norm_num) (by norm_num) (by norm_num)
        (by norm_num) (by norm_num) (by norm_num)).2.1⟩

/-- C10: the simulated bank verification reports a discrepancy of exactly
25.75 for every input amount, so is_match is false and the status is
DISCREPANCY_FOUND on every run — the verification can never succeed. -/
theorem bank_verification_always_discrepancy (e : ℚ) :
    (simulate_bank_verification e).discrepancy = 25.75 ∧
    (simulate_bank_verification e).is_match = false ∧
    (simulate_bank_verification e).status = "DISCREPANCY_FOUND" := by
  rw [simulate_bank_verification_spec e]
  exact ⟨rfl, rfl, rfl⟩

end OwnerStatement
